import Mathlib

/-!
# Verification of the kakaotalk-bot delivery bridge

Shallow embedding of the two source files of the repository:

* `src/index.js` — the skill-platform server: a channel route
  (`POST /channel/message`) that forwards the utterance to the upstream
  engine's `/messages` endpoint and delivers the first answer message via
  callback, and a group route (`POST /group/message`) that asks the engine's
  `/image` endpoint and delivers a text or image envelope via callback.
* `src/discord.js` — the mention bot: on a mention it forwards the processed
  message content to the engine and replies inline.

Handlers are embedded as pure functions from the parsed request body and an
environment (the engine call's outcome, the random UUID drawn for the
session fallback, whether the callback POST succeeds) to the ordered list of
observable events the handler performs.  JavaScript truthiness on the string
fields (`undefined`/`""` are falsy) is expanded explicitly.
-/

namespace KakaoBot

/-! ## Response envelope data model (`src/index.js` lines 15-50) -/

/-- `{simpleText: {text}}` output block. -/
structure SimpleText where
  text : String
deriving DecidableEq, Repr

/-- `{simpleImage: {imageUrl, altText}}` output block. -/
structure SimpleImage where
  imageUrl : String
  altText : String
deriving DecidableEq, Repr

/-- One element of the `template.outputs` array. -/
inductive Output where
  | text (t : SimpleText)
  | image (i : SimpleImage)
deriving DecidableEq, Repr

structure Template where
  outputs : List Output
deriving DecidableEq, Repr

/-- `{version: "2.0", template: {outputs: [...]}}`. -/
structure KakaoEnvelope where
  version : String
  template : Template
deriving DecidableEq, Repr

/-- The fixed localized fallback string (`src/index.js` line 12). -/
def cannotProcessRequestText : String := "죄송합니다. 요청을 처리할 수 없습니다."

/-- The fixed "please wait" text of the group-route acknowledgment
(`src/index.js` line 167). -/
def pleaseWaitText : String := "생각하고 있는 중이에요.\n기다려 주실래요?"

/-- `createKakaoResponse(text = null)` (`src/index.js` lines 15-33).
The JS guard `if (text)` pushes the text block only when `text` is neither
`null` nor the empty string. -/
def createKakaoResponse (text : Option String) : KakaoEnvelope :=
  let outputs : List Output :=
    match text with
    | some t => if t = "" then [] else [Output.text ⟨t⟩]
    | none => []
  { version := "2.0", template := { outputs := outputs } }

/-- `createImageResponse(imageUrl, altText)` (`src/index.js` lines 36-50).
Both call sites pass `altText` explicitly, so the JS default value
`"Generated image"` is never used and is not modelled. -/
def createImageResponse (imageUrl : String) (altText : String) : KakaoEnvelope :=
  { version := "2.0",
    template := { outputs := [Output.image ⟨imageUrl, altText⟩] } }

/-! ## JavaScript string helpers -/

/-- JS truthiness of an optional string: `undefined` and `""` are falsy. -/
def jsTruthyStr : Option String → Bool
  | some s => !(s == "")
  | none => false

/-- `a || b` on an optional string `a` (used for `user?.id || randomUUID()`
and `user?.type || "user"`). -/
def jsOrStr : Option String → String → String
  | some s, d => if s = "" then d else s
  | none, d => d

/-- Model of `String.prototype.trim()`: drop leading and trailing
whitespace. -/
def jsTrim (s : String) : String :=
  ⟨((s.data.dropWhile Char.isWhitespace).reverse.dropWhile Char.isWhitespace).reverse⟩

/-! ## Inbound request model (`src/index.js` lines 78-91 and 149-161)

The request body is `{ userRequest: { utterance, user?: {id, type},
callbackUrl? }, bot }`; the `bot` field is destructured but never used, so it
is not modelled. -/

structure KakaoUser where
  id : Option String
  type : Option String
deriving DecidableEq, Repr

structure UserRequest where
  utterance : Option String
  user : Option KakaoUser
  callbackUrl : Option String
deriving DecidableEq, Repr

structure SkillRequest where
  userRequest : Option UserRequest
deriving DecidableEq, Repr

/-! ## Upstream engine results -/

/-- Outcome of one `engineClient.request` call: either it resolves with a
body, or it rejects (network error, non-2xx status) and control moves to the
enclosing `catch`. -/
inductive EngineResult (α : Type) where
  | ok (data : α)
  | transportError
deriving DecidableEq, Repr

/-- Body of a `/messages` engine answer: `{messages: [...]}`, each field
possibly missing (`engineResponse && engineResponse.messages` is checked at
`src/index.js` lines 114-118; the whole body may also be `null`, modelled by
wrapping in `Option` at use sites). -/
structure EngineTextResponse where
  messages : Option (List String)
deriving DecidableEq, Repr

/-- `image_data` object of an `/image` engine answer. -/
structure ImageData where
  url : String
deriving DecidableEq, Repr

/-- Body of an `/image` engine answer; `image_url` and `response_message`
are carried by the wire format (spec §6) but never read by the code. -/
structure ImageEngineResponse where
  success : Bool
  image_data : Option ImageData
  image_url : Option String
  response_message : Option String
deriving DecidableEq, Repr

/-! ## Observable events of one handler run -/

/-- Body of the `/messages` request (`src/index.js` lines 98-103). -/
structure EngineRequest where
  messages : List String
  session_id : String
deriving DecidableEq, Repr

/-- The HTTP body written by `res.status(..).json/send(..)`. -/
inductive HttpBody where
  | ack (useCallback : Bool) (dataText : Option String)
  | errorMsg (msg : String)
  | envelope (e : KakaoEnvelope)
deriving DecidableEq, Repr

/-- One observable action of a skill-route handler, in program order:
an HTTP response write on the inbound request, an upstream engine call
attempt, or a callback POST attempt (`delivered` records whether the fetch
succeeded; a failed fetch is caught and only logged). -/
inductive Event where
  | respond (status : Nat) (body : HttpBody)
  | engineCall (req : EngineRequest)
  | imageCall (prompt : String)
  | callback (url : String) (body : KakaoEnvelope) (delivered : Bool)
deriving DecidableEq, Repr

/-- Does the event call the upstream engine? -/
def isUpstreamCall : Event → Bool
  | .engineCall _ => true
  | .imageCall _ => true
  | _ => false

/-! ## Channel route (`src/index.js` lines 78-146) -/

/-- `session_id` of the channel route (`src/index.js` lines 100-102):
`kakaotalk-${userRequest.user?.id || randomUUID()}-${userRequest.user?.type
|| "user"}`. `uuid` is the value `randomUUID()` would return on this run. -/
def channelSessionId (user : Option KakaoUser) (uuid : String) : String :=
  "kakaotalk-" ++ jsOrStr (user.bind (fun u => u.id)) uuid ++ "-" ++
    jsOrStr (user.bind (fun u => u.type)) "user"

/-- Per-run environment of the channel handler. -/
structure ChannelEnv where
  uuid : String
  engine : EngineResult (Option EngineTextResponse)
  callbackDelivers : Bool
deriving DecidableEq, Repr

/-- Text selection of the channel route (`src/index.js` lines 111-120):
the first element of `engineResponse.messages` when the body, the list and
its length are all truthy, else the fallback string. -/
def channelResponseText : Option EngineTextResponse → String
  | some r =>
    match r.messages with
    | some (m :: _) => m
    | _ => cannotProcessRequestText
  | none => cannotProcessRequestText

/-- Channel handler after validation has accepted `prompt`
(`src/index.js` lines 93-145).  On a transport error, control reaches the
`catch` block, which builds the fallback envelope and calls
`res.status(500).send(...)` — a second response write on the already
acknowledged request — and never reaches the callback POST. -/
def channelAfterValidation (prompt : String) (user : Option KakaoUser)
    (cb : Option String) (env : ChannelEnv) : List Event :=
  let ackEvent := Event.respond 200 (.ack true none)
  let req : EngineRequest :=
    { messages := [prompt], session_id := channelSessionId user env.uuid }
  match env.engine with
  | .transportError =>
    [ackEvent, .engineCall req,
     .respond 500 (.envelope (createKakaoResponse (some cannotProcessRequestText)))]
  | .ok data =>
    let responseBody := createKakaoResponse (some (channelResponseText data))
    match cb with
    | some url =>
      if url = "" then [ackEvent, .engineCall req]
      else [ackEvent, .engineCall req, .callback url responseBody env.callbackDelivers]
    | none => [ackEvent, .engineCall req]

/-- `channelRouter.post("/message", ...)` (`src/index.js` lines 78-146).
The guard `!userRequest || !userRequest.utterance` (missing body part, or
`utterance` undefined or `""`) yields the first 400; an utterance that trims
to `""` yields the second. -/
def channelHandler (body : SkillRequest) (env : ChannelEnv) : List Event :=
  match body.userRequest with
  | none => [.respond 400 (.errorMsg "Missing message content")]
  | some ur =>
    match ur.utterance with
    | none => [.respond 400 (.errorMsg "Missing message content")]
    | some u =>
      if u = "" then [.respond 400 (.errorMsg "Missing message content")]
      else if jsTrim u = "" then [.respond 400 (.errorMsg "Empty message content")]
      else channelAfterValidation (jsTrim u) ur.user ur.callbackUrl env

/-! ## Group route (`src/index.js` lines 149-235) -/

/-- Per-run environment of the group handler. -/
structure GroupEnv where
  engine : EngineResult (Option ImageEngineResponse)
  callbackDelivers : Bool
deriving DecidableEq, Repr

/-- Envelope built by the group route's background task
(`src/index.js` lines 171-197): on `success && image_data`, an image
envelope whose `altText` is the (trimmed) prompt; on a logical failure the
fallback plus `"(이미지 생성 실패)"`; when the request rejects — or the body
is `null`, so that reading `.success` throws inside the inner `try` — the
fallback plus `"(이미지 생성 오류)"`. -/
def groupResponseBody (prompt : String) :
    EngineResult (Option ImageEngineResponse) → KakaoEnvelope
  | .ok (some d) =>
    match d.image_data, d.success with
    | some idata, true => createImageResponse idata.url prompt
    | _, _ =>
      createKakaoResponse (some (cannotProcessRequestText ++ "\n(이미지 생성 실패)"))
  | .ok none =>
    createKakaoResponse (some (cannotProcessRequestText ++ "\n(이미지 생성 오류)"))
  | .transportError =>
    createKakaoResponse (some (cannotProcessRequestText ++ "\n(이미지 생성 오류)"))

/-- Group handler after validation (`src/index.js` lines 163-229): ack with
the "please wait" text, then the detached task attempts the image call and,
if a callback URL is present, POSTs whatever envelope resulted.  Every
failure inside the task is absorbed by its own `try`/`catch` layers. -/
def groupAfterValidation (prompt : String) (cb : Option String)
    (env : GroupEnv) : List Event :=
  let ackEvent := Event.respond 200 (.ack true (some pleaseWaitText))
  let responseBody := groupResponseBody prompt env.engine
  match cb with
  | some url =>
    if url = "" then [ackEvent, .imageCall prompt]
    else [ackEvent, .imageCall prompt, .callback url responseBody env.callbackDelivers]
  | none => [ackEvent, .imageCall prompt]

/-- `groupRouter.post("/message", ...)` (`src/index.js` lines 149-235). -/
def groupHandler (body : SkillRequest) (env : GroupEnv) : List Event :=
  match body.userRequest with
  | none => [.respond 400 (.errorMsg "Missing message content")]
  | some ur =>
    match ur.utterance with
    | none => [.respond 400 (.errorMsg "Missing message content")]
    | some u =>
      if u = "" then [.respond 400 (.errorMsg "Missing message content")]
      else if jsTrim u = "" then [.respond 400 (.errorMsg "Empty message content")]
      else groupAfterValidation (jsTrim u) ur.callbackUrl env

/-! ## Mention bot (`src/discord.js`) -/

structure DiscordMember where
  displayName : Option String
  username : String
deriving DecidableEq, Repr

/-- The fields of the inbound message object read by the handler
(`src/discord.js` lines 48-67). -/
structure DiscordMessage where
  authorIsBot : Bool
  mentionsBot : Bool
  content : String
  channelId : String
  member : DiscordMember
deriving DecidableEq, Repr

/-- Body of the mention bot's `/messages` request
(`src/discord.js` lines 62-67). -/
structure DiscordEngineRequest where
  messages : List String
  session_id : String
  speaker_name : String
deriving DecidableEq, Repr

/-- One observable action of the mention-bot handler. -/
inductive DiscordEvent where
  | typing
  | engineCall (req : DiscordEngineRequest)
  | send (text : String)
  | handleResponse
deriving DecidableEq, Repr

/-- Remove every occurrence of `pat` from the character list, spending one
unit of fuel per examined character (structural recursion so that concrete
inputs evaluate). -/
def stripTokenFuel (pat : List Char) : Nat → List Char → List Char
  | 0, _ => []
  | _ + 1, [] => []
  | fuel + 1, c :: rest =>
    if pat ≠ [] ∧ pat.isPrefixOf (c :: rest) then
      stripTokenFuel pat fuel (List.drop (pat.length - 1) rest)
    else c :: stripTokenFuel pat fuel rest

/-- Remove every occurrence of `pat` from `l`. -/
def stripToken (pat l : List Char) : List Char :=
  stripTokenFuel pat l.length l

/-- Modelled from the spec: `processMessageContent` lives in `utils.js`,
which is not under `src/`.  Spec §4.5 rejects a mention whose utterance is
empty after trimming, so the function is modelled as stripping the bot's
mention token from the content and trimming the rest. -/
def processMessageContent (content : String) (mentionToken : String) : String :=
  jsTrim ⟨stripToken mentionToken.data content.data⟩

/-- `session_id` of the mention bot: `discord-${message.channel.id}`
(`src/discord.js` line 64). -/
def discordSessionId (channelId : String) : String :=
  "discord-" ++ channelId

/-- `client.on("messageCreate", ...)` (`src/discord.js` lines 48-88).
`handleEngineResponse` (in `utils.js`, not under `src/`) is abstracted as a
single event, per spec §4.5: it delivers the rendered text inline. -/
def discordHandler (msg : DiscordMessage) (mentionToken : String)
    (engine : EngineResult Unit) : List DiscordEvent :=
  if msg.authorIsBot then []
  else if !msg.mentionsBot then []
  else
    let prompt := processMessageContent msg.content mentionToken
    if prompt = "" then []
    else
      let req : DiscordEngineRequest :=
        { messages := [prompt],
          session_id := discordSessionId msg.channelId,
          speaker_name := jsOrStr msg.member.displayName msg.member.username }
      match engine with
      | .transportError =>
        [.typing, .engineCall req,
         .send "Sorry. I can\x27t process your request right now."]
      | .ok _ => [.typing, .engineCall req, .handleResponse]

/-! ## Process startup -/

/-- Outcome of `auth.getIdTokenClient(ENGINE_URL)` at startup. -/
inductive InitOutcome where
  | ok
  | failure
deriving DecidableEq, Repr

/-- What startup did: whether the HTTP listener was started (the process
begins accepting inbound requests) and the exit code passed to
`process.exit`, if any. -/
structure StartOutcome where
  serverStarted : Bool
  exitCode : Option Nat
deriving DecidableEq, Repr

/-- `startBot` of `src/index.js` (lines 237-266): `initializeEngineClient`
re-throws its error (line 61), so the `catch` of `startBot` runs
`process.exit(1)` and `app.listen` is never reached. -/
def startBot : InitOutcome → StartOutcome
  | .ok => { serverStarted := true, exitCode := none }
  | .failure => { serverStarted := false, exitCode := some 1 }

/-- `startBot` of `src/discord.js` (lines 103-121): its
`initializeEngineClient` (lines 36-43) catches the error and does **not**
re-throw, so `startBot` proceeds to `app.listen` and `client.login`
regardless of the init outcome, and never exits. -/
def discordStartBot : InitOutcome → StartOutcome
  | _ => { serverStarted := true, exitCode := none }

/-! ## JSON serialization of an envelope

`JSON.stringify` of the envelope value, as used for the callback POST body
(`src/index.js` lines 133, 206, 222); used to state byte-identity of
rendered envelopes. -/

def jsonEscapeChar (c : Char) : String :=
  if c = '\\' then "\\\\"
  else if c = '\"' then "\\\""
  else if c = '\n' then "\\n"
  else String.singleton c

def jsonEscape (s : String) : String :=
  String.join (s.data.map jsonEscapeChar)

def encodeOutput : Output → String
  | .text t =>
    "\x7b\"simpleText\":\x7b\"text\":\"" ++ jsonEscape t.text ++ "\"\x7d\x7d"
  | .image i =>
    "\x7b\"simpleImage\":\x7b\"imageUrl\":\"" ++ jsonEscape i.imageUrl ++
      "\",\"altText\":\"" ++ jsonEscape i.altText ++ "\"\x7d\x7d"

def encodeOutputList : List Output → String
  | [] => ""
  | [o] => encodeOutput o
  | o :: rest => encodeOutput o ++ "," ++ encodeOutputList rest

def encodeEnvelope (e : KakaoEnvelope) : String :=
  "\x7b\"version\":\"" ++ jsonEscape e.version ++ "\",\"template\":\x7b\"outputs\":[" ++
    encodeOutputList e.template.outputs ++ "]\x7d\x7d"

/-! ## Helper lemmas -/

/-- An utterance whose trim is non-empty is itself non-empty. -/
theorem ne_empty_of_jsTrim_ne (s : String) (hs : jsTrim s ≠ "") : s ≠ "" :=
  fun he => hs (by subst he; rfl)

/-! ## Claims -/

/-- Claim C1, counterexample: on the group route with utterance `"hello"`
and callback `"http://cb"`, a transport error makes the delivered envelope
carry the fallback string *suffixed* with `"\n(이미지 생성 오류)"`, which is
not the fixed fallback string; and on the channel route the same transport
error produces a trace with no callback event at all, so no fallback is
delivered to the user there. -/
theorem c1_counterexample :
    groupHandler ⟨some ⟨some "hello", none, some "http://cb"⟩⟩ ⟨.transportError, true⟩ =
      [.respond 200 (.ack true (some pleaseWaitText)),
       .imageCall "hello",
       .callback "http://cb"
         (createKakaoResponse (some (cannotProcessRequestText ++ "\n(이미지 생성 오류)"))) true] ∧
    cannotProcessRequestText ++ "\n(이미지 생성 오류)" ≠ cannotProcessRequestText ∧
    (channelHandler ⟨some ⟨some "hello", none, some "http://cb"⟩⟩
        ⟨"u-1", .transportError, true⟩).all
      (fun e => match e with | .callback _ _ _ => false | _ => true) = true :=
  ⟨rfl, by decide, rfl⟩

/-- Claim C1 (amended): when the upstream engine call fails with a transport
error on a valid request with a callback URL, the group route's background
task delivers via the callback an envelope whose single text output is the
fallback string suffixed with `"\n(이미지 생성 오류)"` (and the handler's
trace is total, i.e. no exception escapes the task), while the channel
route builds an envelope carrying exactly the fallback string but writes it
as a second HTTP response with status 500 and performs no callback
delivery. -/
theorem c1_amended (s url uuid : String) (user : Option KakaoUser)
    (hs : jsTrim s ≠ "") (hu : url ≠ "") :
    channelHandler ⟨some ⟨some s, user, some url⟩⟩ ⟨uuid, .transportError, true⟩ =
      [.respond 200 (.ack true none),
       .engineCall ⟨[jsTrim s], channelSessionId user uuid⟩,
       .respond 500 (.envelope (createKakaoResponse (some cannotProcessRequestText)))] ∧
    groupHandler ⟨some ⟨some s, user, some url⟩⟩ ⟨.transportError, true⟩ =
      [.respond 200 (.ack true (some pleaseWaitText)),
       .imageCall (jsTrim s),
       .callback url
         (createKakaoResponse (some (cannotProcessRequestText ++ "\n(이미지 생성 오류)"))) true] := by
  have hne : s ≠ "" := ne_empty_of_jsTrim_ne s hs
  constructor
  · simp only [channelHandler, if_neg hne, if_neg hs, channelAfterValidation]
  · simp only [groupHandler, if_neg hne, if_neg hs, groupAfterValidation, if_neg hu,
      groupResponseBody]

/-- Witness for `c1_amended` at utterance `"hello"`, callback
`"http://cb"`, uuid `"u-1"`, no user object. -/
theorem c1_amended_witness :
    channelHandler ⟨some ⟨some "hello", none, some "http://cb"⟩⟩ ⟨"u-1", .transportError, true⟩ =
      [.respond 200 (.ack true none),
       .engineCall ⟨[jsTrim "hello"], channelSessionId none "u-1"⟩,
       .respond 500 (.envelope (createKakaoResponse (some cannotProcessRequestText)))] ∧
    groupHandler ⟨some ⟨some "hello", none, some "http://cb"⟩⟩ ⟨.transportError, true⟩ =
      [.respond 200 (.ack true (some pleaseWaitText)),
       .imageCall (jsTrim "hello"),
       .callback "http://cb"
         (createKakaoResponse (some (cannotProcessRequestText ++ "\n(이미지 생성 오류)"))) true] :=
  c1_amended "hello" "http://cb" "u-1" none (by decide) (by decide)

/-- Claim C2, evidence of the code bug: on the channel route, request body
`{userRequest: {utterance: "hello", callbackUrl: "http://cb"}}` with a
transport-failing engine call yields a trace that writes a second HTTP
response (status 500) after the 200 acknowledgment — the trace contains
exactly two response writes. -/
theorem c2_evidence :
    channelHandler ⟨some ⟨some "hello", none, some "http://cb"⟩⟩
        ⟨"u-1", .transportError, true⟩ =
      [.respond 200 (.ack true none),
       .engineCall ⟨["hello"], "kakaotalk-u-1-user"⟩,
       .respond 500 (.envelope (createKakaoResponse (some cannotProcessRequestText)))] ∧
    (channelHandler ⟨some ⟨some "hello", none, some "http://cb"⟩⟩
        ⟨"u-1", .transportError, true⟩).countP
      (fun e => match e with | .respond _ _ => true | _ => false) = 2 :=
  ⟨rfl, rfl⟩

/-- Claim C3, counterexample: an image answer of the shape the claim quotes,
`{success: true, image_url: "https://x/img.png", response_message: "ok"}`,
has no `image_data` field, so the group route renders the structured-failure
text envelope — not a text block `"ok"` followed by an image block. -/
theorem c3_counterexample :
    groupResponseBody "hello"
        (.ok (some { success := true, image_data := none,
                     image_url := some "https://x/img.png",
                     response_message := some "ok" })) =
      createKakaoResponse (some (cannotProcessRequestText ++ "\n(이미지 생성 실패)")) ∧
    (groupResponseBody "hello"
        (.ok (some { success := true, image_data := none,
                     image_url := some "https://x/img.png",
                     response_message := some "ok" }))).template.outputs ≠
      [Output.text ⟨"ok"⟩, Output.image ⟨"https://x/img.png", "hello"⟩] :=
  ⟨rfl, by decide⟩

/-- Claim C3 (amended): for every group-route request whose upstream image
call returns `success: true` together with an `image_data` object, the
delivered envelope's outputs consist of exactly one image block whose
`imageUrl` is `image_data.url` and whose `altText` is the trimmed original
utterance; no companion text block is ever produced. -/
theorem c3_amended (s url iurl : String) (d : ImageEngineResponse)
    (hs : jsTrim s ≠ "") (hu : url ≠ "")
    (hsuc : d.success = true) (himg : d.image_data = some ⟨iurl⟩) :
    groupHandler ⟨some ⟨some s, none, some url⟩⟩ ⟨.ok (some d), true⟩ =
      [.respond 200 (.ack true (some pleaseWaitText)),
       .imageCall (jsTrim s),
       .callback url
         { version := "2.0",
           template := { outputs := [Output.image ⟨iurl, jsTrim s⟩] } } true] := by
  have hne : s ≠ "" := ne_empty_of_jsTrim_ne s hs
  simp only [groupHandler, if_neg hne, if_neg hs, groupAfterValidation, if_neg hu,
    groupResponseBody, himg, hsuc, createImageResponse]

/-- Witness for `c3_amended` at utterance `"hello"`, callback
`"http://cb"`, engine answer `{success: true, image_data: {url:
"https://y/i.png"}}`. -/
theorem c3_amended_witness :
    groupHandler ⟨some ⟨some "hello", none, some "http://cb"⟩⟩
        ⟨.ok (some { success := true, image_data := some ⟨"https://y/i.png"⟩,
                     image_url := none, response_message := none }), true⟩ =
      [.respond 200 (.ack true (some pleaseWaitText)),
       .imageCall (jsTrim "hello"),
       .callback "http://cb"
         { version := "2.0",
           template := { outputs := [Output.image ⟨"https://y/i.png", jsTrim "hello"⟩] } } true] :=
  c3_amended "hello" "http://cb" "https://y/i.png" _ (by decide) (by decide) rfl rfl

/-- A skill-route request whose utterance is missing, empty, or
whitespace-only after trimming (the validation guards of
`src/index.js` lines 82-89 and 152-159). -/
def invalidUtterance (req : SkillRequest) : Prop :=
  match req.userRequest with
  | none => True
  | some ur =>
    match ur.utterance with
    | none => True
    | some s => jsTrim s = ""

/-- Claim C4: every inbound request whose utterance is missing, empty, or
whitespace-only after trimming is answered with a single HTTP 400 validation
error on both skill-platform routes (silently dropped on the mention-bot
path) and causes zero calls to the upstream engine. -/
theorem c4_validation_rejects_without_upstream (req : SkillRequest)
    (cenv : ChannelEnv) (genv : GroupEnv)
    (msg : DiscordMessage) (tok : String) (deng : EngineResult Unit)
    (hreq : invalidUtterance req)
    (hmsg : processMessageContent msg.content tok = "") :
    (∃ m, channelHandler req cenv = [.respond 400 (.errorMsg m)]) ∧
    (∃ m, groupHandler req genv = [.respond 400 (.errorMsg m)]) ∧
    (channelHandler req cenv).all (fun e => !isUpstreamCall e) = true ∧
    (groupHandler req genv).all (fun e => !isUpstreamCall e) = true ∧
    discordHandler msg tok deng = [] := by
  have hd : discordHandler msg tok deng = [] := by
    rcases msg with ⟨ab, mb, content, cid, mem⟩
    cases ab
    · cases mb
      · simp [discordHandler]
      · simp [discordHandler, hmsg]
    · simp [discordHandler]
  have hcg : ∃ m, channelHandler req cenv = [.respond 400 (.errorMsg m)] ∧
      groupHandler req genv = [.respond 400 (.errorMsg m)] := by
    rcases req with ⟨_ | ⟨_ | s, usr, cb⟩⟩
    · exact ⟨"Missing message content", rfl, rfl⟩
    · exact ⟨"Missing message content", rfl, rfl⟩
    · simp only [invalidUtterance] at hreq
      by_cases hse : s = ""
      · subst hse
        exact ⟨"Missing message content", rfl, rfl⟩
      · refine ⟨"Empty message content", ?_, ?_⟩
        · simp only [channelHandler, if_neg hse, if_pos hreq]
        · simp only [groupHandler, if_neg hse, if_pos hreq]
  obtain ⟨m, hc, hg⟩ := hcg
  exact ⟨⟨m, hc⟩, ⟨m, hg⟩, by rw [hc]; rfl, by rw [hg]; rfl, hd⟩

/-- Witness for `c4_validation_rejects_without_upstream` at the
whitespace-only utterance `"   "` and a whitespace-only mention. -/
theorem c4_witness :
    (∃ m, channelHandler ⟨some ⟨some "   ", none, some "http://cb"⟩⟩
        ⟨"u", .ok none, true⟩ = [.respond 400 (.errorMsg m)]) ∧
    (∃ m, groupHandler ⟨some ⟨some "   ", none, some "http://cb"⟩⟩
        ⟨.ok none, true⟩ = [.respond 400 (.errorMsg m)]) ∧
    (channelHandler ⟨some ⟨some "   ", none, some "http://cb"⟩⟩
        ⟨"u", .ok none, true⟩).all (fun e => !isUpstreamCall e) = true ∧
    (groupHandler ⟨some ⟨some "   ", none, some "http://cb"⟩⟩
        ⟨.ok none, true⟩).all (fun e => !isUpstreamCall e) = true ∧
    discordHandler ⟨false, true, "   ", "chan1", ⟨none, "alice"⟩⟩ "<@bot>" (.ok ()) = [] :=
  c4_validation_rejects_without_upstream
    ⟨some ⟨some "   ", none, some "http://cb"⟩⟩ ⟨"u", .ok none, true⟩ ⟨.ok none, true⟩
    ⟨false, true, "   ", "chan1", ⟨none, "alice"⟩⟩ "<@bot>" (.ok ())
    (show jsTrim "   " = "" by decide) (by decide)

/-- Claim C5: for every skill-platform request whose utterance is non-empty
after trimming, the trace starts with the immediate HTTP 200 response with
`useCallback: true` (carrying the fixed "please wait" text on the group
route), and the upstream engine call — hence also any callback POST, which
occurs even later — lies strictly after that response in program order. -/
theorem c5_ack_precedes_upstream (s : String) (user : Option KakaoUser)
    (cb : Option String) (cenv : ChannelEnv) (genv : GroupEnv)
    (hs : jsTrim s ≠ "") :
    (∃ tail, channelHandler ⟨some ⟨some s, user, cb⟩⟩ cenv =
        .respond 200 (.ack true none) ::
        .engineCall ⟨[jsTrim s], channelSessionId user cenv.uuid⟩ :: tail) ∧
    (∃ tail, groupHandler ⟨some ⟨some s, user, cb⟩⟩ genv =
        .respond 200 (.ack true (some pleaseWaitText)) ::
        .imageCall (jsTrim s) :: tail) := by
  have hne : s ≠ "" := ne_empty_of_jsTrim_ne s hs
  obtain ⟨uuid, eng, cd⟩ := cenv
  obtain ⟨geng, gcd⟩ := genv
  constructor
  · simp only [channelHandler, if_neg hne, if_neg hs, channelAfterValidation]
    split
    · exact ⟨_, rfl⟩
    · split
      · split
        · exact ⟨[], rfl⟩
        · exact ⟨_, rfl⟩
      · exact ⟨[], rfl⟩
  · simp only [groupHandler, if_neg hne, if_neg hs, groupAfterValidation]
    split
    · split
      · exact ⟨[], rfl⟩
      · exact ⟨_, rfl⟩
    · exact ⟨[], rfl⟩

/-- Witness for `c5_ack_precedes_upstream` at utterance `"hello"`,
callback `"http://cb"`. -/
theorem c5_witness :
    (∃ tail, channelHandler ⟨some ⟨some "hello", none, some "http://cb"⟩⟩
        ⟨"u", .ok (some ⟨some ["hi there"]⟩), true⟩ =
        .respond 200 (.ack true none) ::
        .engineCall ⟨[jsTrim "hello"],
          channelSessionId none (ChannelEnv.mk "u" (.ok (some ⟨some ["hi there"]⟩)) true).uuid⟩ :: tail) ∧
    (∃ tail, groupHandler ⟨some ⟨some "hello", none, some "http://cb"⟩⟩ ⟨.ok none, true⟩ =
        .respond 200 (.ack true (some pleaseWaitText)) ::
        .imageCall (jsTrim "hello") :: tail) :=
  c5_ack_precedes_upstream "hello" none (some "http://cb")
    ⟨"u", .ok (some ⟨some ["hi there"]⟩), true⟩ ⟨.ok none, true⟩ (by decide)

/-- Claim C6: the session key is a deterministic function of the identity
fields: a channel request with a user id always yields the same key no
matter which fallback UUID was drawn (so two requests by the same
conversation and user agree), two channel requests with no user object and
distinct fallback UUIDs yield distinct keys, and the mention bot's key is
determined by the conversation (channel) id. -/
theorem c6_session_key :
    (∀ (i t uuid1 uuid2 : String), i ≠ "" →
      channelSessionId (some ⟨some i, some t⟩) uuid1 =
        channelSessionId (some ⟨some i, some t⟩) uuid2) ∧
    (∀ uuid1 uuid2 : String, uuid1 ≠ uuid2 →
      channelSessionId none uuid1 ≠ channelSessionId none uuid2) ∧
    (∀ c1 c2 : String, c1 = c2 → discordSessionId c1 = discordSessionId c2) := by
  refine ⟨?_, ?_, ?_⟩
  · intro i t u1 u2 hi
    simp [channelSessionId, jsOrStr, hi]
  · intro u1 u2 hne heq
    apply hne
    simp only [channelSessionId, Option.none_bind, jsOrStr] at heq
    have hd := congrArg String.data heq
    simp only [String.data_append, List.append_assoc] at hd
    have h1 := List.append_cancel_left hd
    have h2 := List.append_cancel_right h1
    cases u1; cases u2; exact congrArg String.mk h2
  · intro c1 c2 h
    rw [h]

/-- Witness for `c6_session_key`: same user `"u7"` under two different
fallback UUIDs gives the same key; two userless requests with distinct
UUIDs give distinct keys; the mention-bot key is reproducible. -/
theorem c6_witness :
    channelSessionId (some ⟨some "u7", some "friend"⟩) "uuid-a" =
      channelSessionId (some ⟨some "u7", some "friend"⟩) "uuid-b" ∧
    channelSessionId none "uuid-a" ≠ channelSessionId none "uuid-b" ∧
    discordSessionId "chan9" = discordSessionId "chan9" :=
  ⟨c6_session_key.1 "u7" "friend" "uuid-a" "uuid-b" (by decide),
   c6_session_key.2.1 "uuid-a" "uuid-b" (by decide),
   c6_session_key.2.2 "chan9" "chan9" rfl⟩

/-- Claim C7, counterexample: when the engine answers with the non-empty
messages list `[""]`, the channel route's envelope has empty outputs — it
does not carry the first element `""` as a text block (and not the fallback
either). -/
theorem c7_counterexample :
    createKakaoResponse (some (channelResponseText (some ⟨some [""]⟩))) =
      { version := "2.0", template := { outputs := [] } } ∧
    ({ version := "2.0", template := { outputs := [] } } : KakaoEnvelope) ≠
      { version := "2.0", template := { outputs := [Output.text ⟨""⟩] } } :=
  ⟨rfl, by decide⟩

/-- Envelope the amended claim C7 predicts, written from the amended
wording: the first element of the messages list appears verbatim as the sole
text block when it is non-empty; a missing or empty messages list yields the
fallback string; an empty-string first element yields empty outputs. -/
def channelExpectedEnvelope : Option EngineTextResponse → KakaoEnvelope
  | some r =>
    match r.messages with
    | some (m :: _) =>
      if m = "" then { version := "2.0", template := { outputs := [] } }
      else { version := "2.0", template := { outputs := [Output.text ⟨m⟩] } }
    | _ =>
      { version := "2.0",
        template := { outputs := [Output.text ⟨cannotProcessRequestText⟩] } }
  | none =>
    { version := "2.0",
      template := { outputs := [Output.text ⟨cannotProcessRequestText⟩] } }

/-- Claim C7 (amended): for every completed channel-route upstream answer,
the rendered envelope carries the first element of the messages list
verbatim as its sole text block whenever that element is non-empty; when
the messages list is missing or empty it carries the fixed fallback string;
and when the first element is the empty string the outputs are empty. -/
theorem c7_amended (d : Option EngineTextResponse) :
    createKakaoResponse (some (channelResponseText d)) = channelExpectedEnvelope d := by
  rcases d with _ | ⟨_ | ⟨_ | ⟨m, ms⟩⟩⟩
  · decide
  · decide
  · decide
  · by_cases hm : m = ""
    · subst hm; rfl
    · simp [createKakaoResponse, channelResponseText, channelExpectedEnvelope, hm]

/-- Claim C8, counterexample: in `src/discord.js` the engine-client
initialization failure is caught without re-throw, so the mention-bot
process starts its server anyway and never exits with a non-zero status. -/
theorem c8_counterexample :
    (discordStartBot .failure).serverStarted = true ∧
    (discordStartBot .failure).exitCode = none :=
  ⟨rfl, rfl⟩

/-- Claim C8 (amended): on the skill-platform server (`src/index.js`), a
gateway initialization failure exits the process with status 1 and the
listener is never started, while a successful initialization starts the
listener without exiting; the mention-bot process (`src/discord.js`)
instead logs the failure and starts regardless. -/
theorem c8_amended :
    startBot .failure = { serverStarted := false, exitCode := some 1 } ∧
    startBot .ok = { serverStarted := true, exitCode := none } ∧
    discordStartBot .failure = { serverStarted := true, exitCode := none } :=
  ⟨rfl, rfl, rfl⟩

/-- Claim C9: rendering is deterministic and idempotent — the templating
functions are pure, so serializing the envelope rendered from the same
engine answer twice yields byte-identical JSON strings, for the channel text
path, the image path, and the group path alike. -/
theorem c9_render_deterministic (d : Option EngineTextResponse)
    (u a p : String) (g : EngineResult (Option ImageEngineResponse)) :
    encodeEnvelope (createKakaoResponse (some (channelResponseText d))) =
      encodeEnvelope (createKakaoResponse (some (channelResponseText d))) ∧
    encodeEnvelope (createImageResponse u a) = encodeEnvelope (createImageResponse u a) ∧
    encodeEnvelope (groupResponseBody p g) = encodeEnvelope (groupResponseBody p g) :=
  ⟨rfl, rfl, rfl⟩

/-- Claim C10: when the engine's messages list is non-empty with an
empty-string first element, the channel handler builds and POSTs to the
callback an envelope whose `template.outputs` array is empty — neither the
engine text nor the fallback string appears. -/
theorem c10_empty_first_message (s url uuid : String) (ms : List String)
    (hs : jsTrim s ≠ "") (hu : url ≠ "") :
    channelHandler ⟨some ⟨some s, none, some url⟩⟩
        ⟨uuid, .ok (some ⟨some ("" :: ms)⟩), true⟩ =
      [.respond 200 (.ack true none),
       .engineCall ⟨[jsTrim s], channelSessionId none uuid⟩,
       .callback url { version := "2.0", template := { outputs := [] } } true] := by
  have hne : s ≠ "" := ne_empty_of_jsTrim_ne s hs
  simp only [channelHandler, if_neg hne, if_neg hs, channelAfterValidation, if_neg hu,
    channelResponseText, createKakaoResponse, if_true]

/-- Witness for `c10_empty_first_message` at utterance `"hi"` and callback
`"http://cb"`. -/
theorem c10_witness :
    channelHandler ⟨some ⟨some "hi", none, some "http://cb"⟩⟩
        ⟨"u", .ok (some ⟨some ("" :: ["later"])⟩), true⟩ =
      [.respond 200 (.ack true none),
       .engineCall ⟨[jsTrim "hi"], channelSessionId none "u"⟩,
       .callback "http://cb" { version := "2.0", template := { outputs := [] } } true] :=
  c10_empty_first_message "hi" "http://cb" "u" ["later"] (by decide) (by decide)

end KakaoBot
